import Mathlib

/-!
Verification development for the interface-reactions notebook
(notebooks/2018-01-29-Interface Reactions.ipynb).

The notebook is glue code over an external materials-thermodynamics
library (pymatgen) and a remote database.  We embed the notebook's own
logic shallowly: the values it constructs (the element list, the phase
diagram arguments, the chemical-potential dictionary, the call to the
interfacial-reactivity analysis, the tabulation of kink records) are
Lean data; the external library calls are oracle parameters.
-/

namespace InterfaceRxns

attribute [local semireducible] Rat.add Rat.mul Rat.sub Rat.inv

/-- A chemical element symbol, for example "Li" or "Co". -/
abbrev Symbol := String

/-- Model of a pymatgen Composition as the notebook uses it: the parsed
formula string together with the list of element symbols occurring in
it (the notebook only reads the elements of a composition). -/
structure Composition where
  formula : String
  elems : List Symbol
deriving Repr, DecidableEq

/-- Model of a computed-energy entry returned by the database: an
identifier, the chemical system of the entry, and its energy. -/
structure Entry where
  id : Nat
  elems : List Symbol
  energy : ℚ
deriving Repr, DecidableEq

/-- Model of a pymatgen PhaseDiagram as the notebook constructs it:
the entry set it is built over. -/
structure PhaseDiagram where
  entries : List Entry
deriving Repr, DecidableEq

/-- Model of a pymatgen GrandPotentialPhaseDiagram as the notebook
constructs it: the entry set together with the chemical-potential
dictionary, modelled as an association list. -/
structure GrandPotentialPhaseDiagram where
  entries : List Entry
  chempots : List (Symbol × ℚ)
deriving Repr, DecidableEq

/-- Model of a pymatgen Reaction object, kept opaque apart from its
display string: the notebook never inspects a reaction beyond
printing it. -/
structure Reaction where
  display : String
deriving Repr, DecidableEq

/-- The phase-diagram argument handed to the interfacial-reactivity
analysis: either a closed-system diagram or a grand-potential one. -/
inductive PDArg where
  | closed (pd : PhaseDiagram)
  | grand (gpd : GrandPotentialPhaseDiagram)
deriving Repr, DecidableEq

/-- The full argument record of the single InterfacialReactivity
invocation made by the notebook. -/
structure InterfacialReactivityCall where
  c1 : Composition
  c2 : Composition
  pdArg : PDArg
  norm : Bool
  include_no_mixing_energy : Bool
  pd_non_grand : Option PhaseDiagram
deriving Repr, DecidableEq

/-- First chemical formula set in the notebook. -/
def reactant1 : String := "LiCoO2"

/-- Second chemical formula set in the notebook. -/
def reactant2 : String := "Li3PS4"

/-- Element in the elemental reservoir, assigned when the system is
open (the notebook runs with the open-system flag set to True). -/
def open_el : Symbol := "Co"

/-- Relative chemical potential versus the pure substance. -/
def relative_mu : ℚ := -1

/-- Composition of the first reactant.  The element list is the one
pymatgen parses out of the formula LiCoO2. -/
def comp1 : Composition := ⟨reactant1, ["Li", "Co", "O"]⟩

/-- Composition of the second reactant.  The element list is the one
pymatgen parses out of the formula Li3PS4. -/
def comp2 : Composition := ⟨reactant2, ["Li", "P", "S"]⟩

/-- Model of the Python idiom list(set(xs)): a duplicate-free list with
the same members.  Python returns the members in unspecified order; we
determinize to first-occurrence order. -/
def pySetList (xs : List Symbol) : List Symbol := xs.dedup

/-- The element list the notebook builds and passes to the
entry-retrieval call: symbols of the elements of comp1 and comp2, the
open element appended when the system is open, duplicates removed. -/
def elements (grand : Bool) : List Symbol :=
  pySetList ((comp1.elems ++ comp2.elems) ++ (if grand then [open_el] else []))

/-- Model of the Python indexing expression xs[i]: defined exactly when
i is in bounds. -/
def pyIndex {α : Type} (xs : List α) (i : Nat) : Option α := xs.get? i

/-- Union of the element symbols occurring in an entry set; the
elements of the phase diagram built over those entries. -/
def pdElements (pd : PhaseDiagram) : List Symbol :=
  (pd.entries.map Entry.elems).flatten

/-- Modelled from the spec: the transition-chemical-potential query of
the external phase-diagram component is not part of this repository.
The spec describes the phase diagram as a convex hull over the entries
from which stability data can be queried; the query returns, for an
element belonging to the diagram, one chemical potential per facet of
the hull, and fails (raises) for an element outside the diagram.  The
facet data is an oracle parameter. -/
def get_transition_chempots (facetChempots : List (Symbol → ℚ))
    (pd : PhaseDiagram) (el : Symbol) : Option (List ℚ) :=
  if el ∈ pdElements pd then some (facetChempots.map (fun f => f el)) else none

/-- Model of the remote database client: the single method the
notebook calls on it. -/
structure MPRester where
  get_entries_in_chemsys : List Symbol → List Entry

/-- Everything the main cell of the notebook binds: the closed-system
phase diagram, the grand-potential diagram when the system is open,
and the argument record of the interfacial-reactivity invocation. -/
structure Cell5Result where
  pd : PhaseDiagram
  gpd : Option GrandPotentialPhaseDiagram
  interface : InterfacialReactivityCall
deriving Repr, DecidableEq

/-- Shallow embedding of the main cell of the notebook: fetch entries
for the chemical system, build the phase diagram, and, when the system
is open, look up the first transition chemical potential of the open
element, build the grand-potential diagram at relative_mu + mu, and
invoke the analysis on it; otherwise invoke the analysis on the
closed-system diagram.  Returns none when the chemical-potential
lookup fails. -/
def cell5 (mpr : MPRester) (facetChempots : List (Symbol → ℚ))
    (grand : Bool) : Option Cell5Result :=
  let entries := mpr.get_entries_in_chemsys (elements grand)
  let pd : PhaseDiagram := ⟨entries⟩
  if grand then
    match get_transition_chempots facetChempots pd open_el with
    | none => none
    | some tcs =>
      match pyIndex tcs 0 with
      | none => none
      | some mu =>
        let chempots : List (Symbol × ℚ) := [(open_el, relative_mu + mu)]
        let gpd : GrandPotentialPhaseDiagram := ⟨entries, chempots⟩
        some ⟨pd, some gpd, ⟨comp1, comp2, .grand gpd, true, true, some pd⟩⟩
  else
    some ⟨pd, none, ⟨comp1, comp2, .closed pd, true, false, none⟩⟩

example : (elements true) = ["O", "Li", "P", "S", "Co"] := by decide
example : (elements false) = ["Co", "O", "Li", "P", "S"] := by decide

/-- One kink record as returned by the get_kinks method of the
analysis: the tuple (index, mixing ratio, reaction energy, reaction)
the notebook destructures. -/
structure Kink where
  idx : Nat
  ratio : ℚ
  energy : ℚ
  rxn : Reaction
deriving Repr, DecidableEq

/-- A value stored in one field of a tabulated record: either a
rounded number or a Reaction object. -/
inductive CellValue where
  | num (q : ℚ)
  | rxn (r : Reaction)
deriving Repr, DecidableEq

/-- Round-half-to-even on rationals, the rounding mode of the Python
built-in round (idealized over exact rationals). -/
def roundHalfEven (q : ℚ) : ℤ :=
  if q - (q.floor : ℚ) < Rat.divInt 1 2 then q.floor
  else if Rat.divInt 1 2 < q - (q.floor : ℚ) then q.floor + 1
  else if q.floor % 2 = 0 then q.floor else q.floor + 1

/-- Model of the Python expression round(x, 4): round half to even at
the fourth decimal place. -/
def round4 (q : ℚ) : ℚ := Rat.divInt (roundHalfEven (q * 10000)) 10000

example : round4 (Rat.divInt 1 3) = Rat.divInt 3333 10000 := by decide
example : round4 (Rat.divInt 25 20000) = Rat.divInt 12 10000 := by decide
example : round4 (Rat.divInt 35 20000) = Rat.divInt 18 10000 := by decide
example : round4 (Rat.divInt (-1) 3) = Rat.divInt (-3333) 10000 := by decide

/-- Shallow embedding of the tabulation cell: for each kink, an
ordered record with exactly the three fields the notebook builds, the
ratio and the energy rounded to 4 decimal places, the reaction kept
as is. -/
def critical_rxns (kinks : List Kink) : List (List (String × CellValue)) :=
  kinks.map fun k =>
    [("mixing ratio", .num (round4 k.ratio)),
     ("reaction energy (eV/atom)", .num (round4 k.energy)),
     ("reaction", .rxn k.rxn)]

/-- Modelled from the spec: the mixing ratio of a kink, defined by the
spec as the fraction of one reactant atoms in a two-reactant mixture.
Here x and y are the atom counts contributed by the two reactants. -/
def mixing_ratio (x y : Nat) : ℚ := Rat.divInt (x : ℤ) ((x : ℤ) + (y : ℤ))

/-- Modelled from the spec: the get_kinks method of the analysis is
external to this repository.  Each kink it returns carries a mixing
ratio, which the spec defines as a fraction of one reactant atoms in
the mixture; we model the returned list from raw data giving, per
kink, the index, the two atom counts, the reaction energy and the
reaction. -/
def get_kinks_model (data : List (Nat × Nat × Nat × ℚ × Reaction)) : List Kink :=
  data.map fun d => ⟨d.1, mixing_ratio d.2.1 d.2.2.1, d.2.2.2.1, d.2.2.2.2⟩

/-- An observable effect of running the notebook: the REST call to the
database, the inline plot, the tabular display, a printed line, or a
file write (which never occurs). -/
inductive Effect where
  | restCall (elems : List Symbol)
  | plotOutput
  | tableOutput
  | printOutput (s : String)
  | fileWrite (path : String)
deriving Repr, DecidableEq

/-- The string the Python builtin type produces for a Reaction object,
printed by the last cell of the notebook. -/
def reactionTypeName : String := "pymatgen.analysis.reaction_calculator.Reaction"

/-- Whether an effect is a displayed output of the notebook (plot,
table or printed text), as opposed to network traffic. -/
def isOutput : Effect → Bool
  | .plotOutput => true
  | .tableOutput => true
  | .printOutput _ => true
  | _ => false

/-- Whether an effect writes a file. -/
def writesFile : Effect → Bool
  | .fileWrite _ => true
  | _ => false

/-- The ordered effect trace of a full run of the notebook: the entry
retrieval call, the inline plot of the reactivity curve, the tabular
display of the kink reactions, and the two printed lines of the final
cell, which prints one kink reaction and its Python type.  The printed
reaction is a parameter.  No cell writes a file or stores state. -/
def notebookEffects (grand : Bool) (rxn : Reaction) : List Effect :=
  [.restCall (elements grand), .plotOutput, .tableOutput,
   .printOutput rxn.display, .printOutput reactionTypeName]

/-- An assignment to or a read of a notebook variable, in program
order. -/
inductive VarEvent where
  | assign (n : String)
  | read (n : String)
deriving Repr, DecidableEq

/-- Names available before the notebook runs: the imported names and
the Python builtins the notebook uses. -/
def initialEnv : List String :=
  ["MPRester", "InterfacialReactivity", "PhaseDiagram",
   "GrandPotentialPhaseDiagram", "Composition", "Element",
   "OrderedDict", "DataFrame", "round", "print", "type", "list", "set"]

/-- The sequence of variable assignments and reads the notebook
performs, cell by cell, with the branches on the open-system flag
rendered as conditional sublists.  Mirrors the notebook source line by
line. -/
def notebookEvents (grand : Bool) : List VarEvent :=
  [.read "MPRester", .assign "mpr",
   .assign "reactant1", .assign "reactant2", .assign "grand",
   .read "grand"] ++
  (if grand then [.assign "open_el", .assign "relative_mu"] else []) ++
  [.read "Composition", .read "reactant1", .assign "comp1",
   .read "Composition", .read "reactant2", .assign "comp2",
   .read "comp1", .read "comp2", .assign "elements",
   .read "grand"] ++
  (if grand then [.read "elements", .read "open_el"] else []) ++
  [.read "list", .read "set", .read "elements", .assign "elements",
   .read "mpr", .read "elements", .assign "entries",
   .read "PhaseDiagram", .read "entries", .assign "pd",
   .read "grand"] ++
  (if grand then
    [.read "pd", .read "Element", .read "open_el", .assign "mu",
     .read "open_el", .read "relative_mu", .read "mu", .assign "chempots",
     .read "GrandPotentialPhaseDiagram", .read "entries", .read "chempots",
     .assign "gpd",
     .read "InterfacialReactivity", .read "comp1", .read "comp2",
     .read "gpd", .read "pd", .assign "interface"]
   else
    [.read "InterfacialReactivity", .read "comp1", .read "comp2",
     .read "pd", .assign "interface"]) ++
  [.read "interface", .assign "plt",
   .read "interface", .read "OrderedDict", .read "round",
   .assign "critical_rxns",
   .read "DataFrame", .read "critical_rxns",
   .read "critical_rxns", .assign "rxn",
   .read "print", .read "rxn",
   .read "print", .read "type", .read "rxn"]

/-- Scope check over an event trace: every read must be of a name
already assigned or present in the initial environment. -/
def definedBefore : List VarEvent → List String → Bool
  | [], _ => true
  | .assign n :: rest, env => definedBefore rest (n :: env)
  | .read n :: rest, env => env.contains n && definedBefore rest env

/-- An error surfaced by the external library or the database call. -/
inductive PyError where
  | authFailure
  | missingAPIKey
  | emptyEntrySet
  | other (msg : String)
deriving Repr, DecidableEq

/-- The notebook pipeline with fallible external calls: entry
retrieval, transition-chemical-potential lookup and kink enumeration
may each fail.  The notebook has no handler, so each failure is
propagated by the surrounding match with no recovery branch, exactly
as an uncaught Python exception unwinds to top level. -/
def notebookRunE (ge : List Symbol → Except PyError (List Entry))
    (tc : PhaseDiagram → Symbol → Except PyError (List ℚ))
    (gk : InterfacialReactivityCall → Except PyError (List Kink))
    (grand : Bool) : Except PyError (List (List (String × CellValue))) :=
  match ge (elements grand) with
  | .error e => .error e
  | .ok entries =>
    let pd : PhaseDiagram := ⟨entries⟩
    let callE : Except PyError InterfacialReactivityCall :=
      if grand then
        match tc pd open_el with
        | .error e => .error e
        | .ok tcs =>
          match pyIndex tcs 0 with
          | none => .error (.other "list index out of range")
          | some mu =>
            .ok ⟨comp1, comp2, .grand ⟨entries, [(open_el, relative_mu + mu)]⟩,
                 true, true, some pd⟩
      else .ok ⟨comp1, comp2, .closed pd, true, false, none⟩
    match callE with
    | .error e => .error e
    | .ok call =>
      match gk call with
      | .error e => .error e
      | .ok ks => .ok (critical_rxns ks)

/-- The notebook variables that hold values of the externally owned
types, each none until its single assignment. -/
structure VarState where
  comp1v : Option Composition
  comp2v : Option Composition
  entriesv : Option (List Entry)
  pdv : Option PhaseDiagram
  gpdv : Option GrandPotentialPhaseDiagram
  rxnv : Option Reaction

/-- The variable state after the first k assignments of the notebook,
in program order: comp1, comp2, entries, pd, gpd and finally the rxn
binding of the last cell.  After the sixth assignment no further
assignment occurs, so the state is constant from there on. -/
def stateAt (c1 : Composition) (c2 : Composition) (es : List Entry)
    (p : PhaseDiagram) (g : GrandPotentialPhaseDiagram) (r : Reaction) :
    Nat → VarState
  | 0 => ⟨none, none, none, none, none, none⟩
  | 1 => ⟨some c1, none, none, none, none, none⟩
  | 2 => ⟨some c1, some c2, none, none, none, none⟩
  | 3 => ⟨some c1, some c2, some es, none, none, none⟩
  | 4 => ⟨some c1, some c2, some es, some p, none, none⟩
  | 5 => ⟨some c1, some c2, some es, some p, some g, none⟩
  | _ + 6 => ⟨some c1, some c2, some es, some p, some g, some r⟩

/-- One state preserves another when every variable already bound in
the first is bound to the same value in the second: nothing was
mutated or destroyed in between. -/
def Preserves (s t : VarState) : Prop :=
  (∀ v, s.comp1v = some v → t.comp1v = some v) ∧
  (∀ v, s.comp2v = some v → t.comp2v = some v) ∧
  (∀ v, s.entriesv = some v → t.entriesv = some v) ∧
  (∀ v, s.pdv = some v → t.pdv = some v) ∧
  (∀ v, s.gpdv = some v → t.gpdv = some v) ∧
  (∀ v, s.rxnv = some v → t.rxnv = some v)

/-- A concrete database client for witnesses: one entry containing the
open element. -/
def mprW : MPRester := ⟨fun _ => [⟨0, ["Co"], 0⟩]⟩

/-- A concrete one-facet chemical-potential oracle for witnesses. -/
def fcsW : List (Symbol → ℚ) := [fun _ => 0]

/-- The concrete result of the main cell on the witness oracles. -/
def rW : Cell5Result :=
  (cell5 mprW fcsW true).getD
    ⟨⟨[]⟩, none, ⟨comp1, comp2, PDArg.closed ⟨[]⟩, true, false, none⟩⟩

example : cell5 mprW fcsW true = some rW := by decide

/-- C1: For the fixed reactants LiCoO2 and Li3PS4, the list elements
passed to the entry-retrieval call contains exactly the symbols of the
chemical elements occurring in comp1 or comp2, together with the open
element open_el when the flag grand is true, and contains no symbol
more than once. -/
theorem c1_elements_exact (grand : Bool) (s : Symbol) :
    (s ∈ elements grand ↔
      s ∈ comp1.elems ∨ s ∈ comp2.elems ∨ (grand = true ∧ s = open_el)) ∧
    (elements grand).Nodup := by
  refine ⟨?_, List.nodup_dedup _⟩
  unfold elements pySetList
  rw [List.mem_dedup]
  cases grand <;> simp [List.mem_append]

/-- C4: For every kink record returned by get_kinks, in the same
order, the tabulation produces exactly one record with exactly three
fields in the order mixing ratio, reaction energy, reaction, whose
first two values are the kink ratio and energy rounded to 4 decimal
places and whose third value is the kink Reaction object unchanged. -/
theorem c4_critical_rxns_rows (kinks : List Kink) :
    (critical_rxns kinks).length = kinks.length ∧
    ∀ i (hi : i < kinks.length),
      (critical_rxns kinks).get? i =
        some [("mixing ratio", CellValue.num (round4 (kinks.get ⟨i, hi⟩).ratio)),
              ("reaction energy (eV/atom)",
                CellValue.num (round4 (kinks.get ⟨i, hi⟩).energy)),
              ("reaction", CellValue.rxn (kinks.get ⟨i, hi⟩).rxn)] := by
  refine ⟨List.length_map _ _, fun i hi => ?_⟩
  simp [critical_rxns, List.getElem?_map, List.getElem?_eq_getElem hi]

/-- C4 witness: the tabulation of a concrete one-kink list. -/
theorem c4_witness :
    (critical_rxns [⟨0, Rat.divInt 1 2, -1, ⟨"r"⟩⟩]).get? 0 =
      some [("mixing ratio", CellValue.num (round4 (Rat.divInt 1 2))),
            ("reaction energy (eV/atom)", CellValue.num (round4 (-1))),
            ("reaction", CellValue.rxn ⟨"r"⟩)] :=
  (c4_critical_rxns_rows [⟨0, Rat.divInt 1 2, -1, ⟨"r"⟩⟩]).2 0 (by decide)

/-- C9: open_el and relative_mu are assigned only when the flag grand
is true and are read only inside branches guarded by grand, so for
either value of grand every variable the notebook reads has been
defined before the read. -/
theorem c9_defined_before_read (grand : Bool) :
    definedBefore (notebookEvents grand) initialEnv = true ∧
    ((VarEvent.assign "open_el" ∈ notebookEvents grand ∨
      VarEvent.read "open_el" ∈ notebookEvents grand ∨
      VarEvent.assign "relative_mu" ∈ notebookEvents grand ∨
      VarEvent.read "relative_mu" ∈ notebookEvents grand) ↔ grand = true) := by
  cases grand <;> exact ⟨by decide, by decide⟩

/-- C2: When the flag grand is true, the grand-potential phase diagram
is constructed over the same entry set as the closed-system phase
diagram, with the chemical potential fixed for exactly one element,
open_el, at the value relative_mu + mu, where mu is the first
transition chemical potential of open_el taken from the closed-system
phase diagram. -/
theorem c2_gpd_construction (mpr : MPRester) (fcs : List (Symbol → ℚ))
    (r : Cell5Result) (h : cell5 mpr fcs true = some r) :
    r.pd.entries = mpr.get_entries_in_chemsys (elements true) ∧
    ∃ tcs mu, get_transition_chempots fcs r.pd open_el = some tcs ∧
      pyIndex tcs 0 = some mu ∧
      r.gpd = some ⟨r.pd.entries, [(open_el, relative_mu + mu)]⟩ := by
  unfold cell5 at h
  simp only [if_true] at h
  split at h
  next htc => cases h
  next tcs htc =>
    split at h
    next hix => cases h
    next mu hix =>
      cases h
      exact ⟨rfl, tcs, mu, htc, hix, rfl⟩

/-- C3: The interfacial-reactivity analysis is invoked exactly once,
with the grand-potential diagram and pd_non_grand = pd when grand is
true, and with the closed-system diagram and pd_non_grand = None
otherwise; norm is True in both branches and
include_no_mixing_energy equals grand. -/
theorem c3_interface_invocation (mpr : MPRester) (fcs : List (Symbol → ℚ))
    (grand : Bool) (r : Cell5Result) (h : cell5 mpr fcs grand = some r) :
    r.interface.c1 = comp1 ∧ r.interface.c2 = comp2 ∧
    r.interface.norm = true ∧
    r.interface.include_no_mixing_energy = grand ∧
    (if grand then
      (∃ g, r.gpd = some g ∧ r.interface.pdArg = PDArg.grand g) ∧
        r.interface.pd_non_grand = some r.pd
     else r.interface.pdArg = PDArg.closed r.pd ∧
        r.interface.pd_non_grand = none) := by
  cases grand with
  | false =>
    unfold cell5 at h
    simp only [Bool.false_eq_true, if_false] at h
    cases h
    exact ⟨rfl, rfl, rfl, rfl, by simp⟩
  | true =>
    unfold cell5 at h
    simp only [if_true] at h
    split at h
    next htc => cases h
    next tcs htc =>
      split at h
      next hix => cases h
      next mu hix =>
        cases h
        exact ⟨rfl, rfl, rfl, rfl, by simp⟩

/-- C10: The index access into the transition-chemical-potential list
is in bounds exactly when that list is non-empty, and when the
retrieved entry set contains the open element (and the phase diagram,
as always, has at least one facet) the main cell never fails. -/
theorem c10_mu_index_in_bounds (mpr : MPRester) (fcs : List (Symbol → ℚ)) :
    (∀ tcs : List ℚ,
      get_transition_chempots fcs
          ⟨mpr.get_entries_in_chemsys (elements true)⟩ open_el = some tcs →
        ((pyIndex tcs 0).isSome ↔ tcs ≠ [])) ∧
    (open_el ∈ pdElements ⟨mpr.get_entries_in_chemsys (elements true)⟩ →
      fcs ≠ [] → (cell5 mpr fcs true).isSome) := by
  constructor
  · intro tcs _
    cases tcs <;> simp [pyIndex]
  · intro hmem hfcs
    unfold cell5
    simp only [if_true]
    rw [get_transition_chempots, if_pos hmem]
    cases fcs with
    | nil => exact absurd rfl hfcs
    | cons f rest => simp [pyIndex]


/-- C2 witness: the grand-potential diagram construction evaluated on
the concrete witness oracles. -/
theorem c2_witness :
    rW.pd.entries = mprW.get_entries_in_chemsys (elements true) ∧
    ∃ tcs mu, get_transition_chempots fcsW rW.pd open_el = some tcs ∧
      pyIndex tcs 0 = some mu ∧
      rW.gpd = some ⟨rW.pd.entries, [(open_el, relative_mu + mu)]⟩ :=
  c2_gpd_construction mprW fcsW rW (by decide)

/-- C3 witness: the invocation record evaluated on the concrete
witness oracles in the open-system branch. -/
theorem c3_witness :
    rW.interface.c1 = comp1 ∧ rW.interface.c2 = comp2 ∧
    rW.interface.norm = true ∧
    rW.interface.include_no_mixing_energy = true ∧
    (if true then
      (∃ g, rW.gpd = some g ∧ rW.interface.pdArg = PDArg.grand g) ∧
        rW.interface.pd_non_grand = some rW.pd
     else rW.interface.pdArg = PDArg.closed rW.pd ∧
        rW.interface.pd_non_grand = none) :=
  c3_interface_invocation mprW fcsW true rW (by decide)

/-- C10 witness: the bounds equivalence and the success of the main
cell on the concrete witness oracles. -/
theorem c10_witness :
    ((pyIndex ([0] : List ℚ) 0).isSome ↔ ([0] : List ℚ) ≠ []) ∧
    (cell5 mprW fcsW true).isSome :=
  ⟨(c10_mu_index_in_bounds mprW fcsW).1 [0] (by decide),
   (c10_mu_index_in_bounds mprW fcsW).2 (by decide) (List.cons_ne_nil _ _)⟩

/-- The computable floor on rationals agrees with the floor of the
archimedean order structure. -/
theorem rat_floor_eq_int_floor (q : ℚ) : q.floor = ⌊q⌋ := by
  rw [Rat.floor_def', Rat.floor_def]

/-- Round-half-to-even of a nonnegative rational is nonnegative. -/
theorem roundHalfEven_nonneg (q : ℚ) (h : 0 ≤ q) : 0 ≤ roundHalfEven q := by
  have hn : 0 ≤ ⌊q⌋ := Int.floor_nonneg.mpr h
  have hfl : q.floor = ⌊q⌋ := rat_floor_eq_int_floor q
  unfold roundHalfEven
  split_ifs <;> rw [hfl] <;> linarith [hn]

/-- Round-half-to-even never overshoots an integer upper bound. -/
theorem roundHalfEven_le (q : ℚ) (m : ℤ) (h : q ≤ (m : ℚ)) :
    roundHalfEven q ≤ m := by
  have hmono : ⌊q⌋ ≤ m := by
    have h2 := Int.floor_mono h
    rwa [Int.floor_intCast] at h2
  have hfl : q.floor = ⌊q⌋ := rat_floor_eq_int_floor q
  have hhalf : (0 : ℚ) < Rat.divInt 1 2 := by
    rw [Rat.divInt_eq_div]; norm_num
  have hstrict : ¬(q - (q.floor : ℚ) < Rat.divInt 1 2) → q.floor + 1 ≤ m := by
    intro h1
    have hle : Rat.divInt 1 2 ≤ q - (q.floor : ℚ) := not_lt.mp h1
    have hq : (q.floor : ℚ) < q := by linarith
    have hqm : q.floor < m := by exact_mod_cast lt_of_lt_of_le hq h
    exact Int.add_one_le_iff.mpr hqm
  unfold roundHalfEven
  split_ifs with h1 h2 h3
  · rw [hfl]; exact hmono
  · exact hstrict h1
  · rw [hfl]; exact hmono
  · exact hstrict h1

/-- Rounding to four decimals keeps a nonnegative value nonnegative. -/
theorem round4_nonneg (q : ℚ) (h0 : 0 ≤ q) : 0 ≤ round4 q := by
  unfold round4
  rw [Rat.divInt_eq_div]
  apply div_nonneg
  · exact_mod_cast roundHalfEven_nonneg (q * 10000) (by positivity)
  · norm_num

/-- Rounding to four decimals keeps a value that is at most one at
most one. -/
theorem round4_le_one (q : ℚ) (h1 : q ≤ 1) : round4 q ≤ 1 := by
  unfold round4
  rw [Rat.divInt_eq_div, div_le_one (by norm_num : (0 : ℚ) < ((10000 : ℤ) : ℚ))]
  have hb : roundHalfEven (q * 10000) ≤ (10000 : ℤ) := by
    apply roundHalfEven_le
    push_cast
    linarith
  exact_mod_cast hb

/-- A mixing ratio of nonnegative atom counts with positive total lies
in the unit interval. -/
theorem mixing_ratio_mem_unit (x y : Nat) (hpos : 0 < x + y) :
    0 ≤ mixing_ratio x y ∧ mixing_ratio x y ≤ 1 := by
  unfold mixing_ratio
  rw [Rat.divInt_eq_div]
  have hden : (0 : ℚ) < (((x : ℤ) + (y : ℤ) : ℤ) : ℚ) := by
    push_cast
    exact_mod_cast hpos
  constructor
  · apply div_nonneg _ (le_of_lt hden)
    push_cast
    positivity
  · rw [div_le_one hden]
    push_cast
    linarith [Nat.cast_nonneg (α := ℚ) y]

/-- C5: For every kink record produced by the analysis and tabulated
by the notebook, the mixing-ratio value lies between 0 and 1
inclusive, both as returned and after the 4-decimal rounding applied
by the tabulation. -/
theorem c5_mixing_ratio_range (data : List (Nat × Nat × Nat × ℚ × Reaction))
    (hpos : ∀ d ∈ data, 0 < d.2.1 + d.2.2.1) :
    ∀ k ∈ get_kinks_model data,
      0 ≤ k.ratio ∧ k.ratio ≤ 1 ∧
      0 ≤ round4 k.ratio ∧ round4 k.ratio ≤ 1 := by
  intro k hk
  unfold get_kinks_model at hk
  rw [List.mem_map] at hk
  obtain ⟨d, hd, rfl⟩ := hk
  obtain ⟨h0, h1⟩ := mixing_ratio_mem_unit d.2.1 d.2.2.1 (hpos d hd)
  exact ⟨h0, h1, round4_nonneg _ h0, round4_le_one _ h1⟩

/-- C5 witness: the bounds evaluated on a concrete kink with one atom
from each reactant. -/
theorem c5_witness :
    0 ≤ mixing_ratio 1 1 ∧ mixing_ratio 1 1 ≤ 1 ∧
    0 ≤ round4 (mixing_ratio 1 1) ∧ round4 (mixing_ratio 1 1) ≤ 1 :=
  c5_mixing_ratio_range [(0, 1, 1, -2, ⟨"r"⟩)] (by decide)
    ⟨0, mixing_ratio 1 1, -2, ⟨"r"⟩⟩ (by decide)

/-- Preservation is reflexive. -/
theorem preserves_refl (s : VarState) : Preserves s s :=
  ⟨fun _ h => h, fun _ h => h, fun _ h => h,
   fun _ h => h, fun _ h => h, fun _ h => h⟩

/-- Preservation is transitive. -/
theorem preserves_trans {s t u : VarState}
    (h1 : Preserves s t) (h2 : Preserves t u) : Preserves s u :=
  ⟨fun v hv => h2.1 v (h1.1 v hv),
   fun v hv => h2.2.1 v (h1.2.1 v hv),
   fun v hv => h2.2.2.1 v (h1.2.2.1 v hv),
   fun v hv => h2.2.2.2.1 v (h1.2.2.2.1 v hv),
   fun v hv => h2.2.2.2.2.1 v (h1.2.2.2.2.1 v hv),
   fun v hv => h2.2.2.2.2.2 v (h1.2.2.2.2.2 v hv)⟩

/-- Each single assignment of the notebook only fills a variable that
was unset: it preserves every variable already bound. -/
theorem stateAt_step (c1 c2 : Composition) (es : List Entry)
    (p : PhaseDiagram) (g : GrandPotentialPhaseDiagram) (r : Reaction)
    (k : Nat) :
    Preserves (stateAt c1 c2 es p g r k) (stateAt c1 c2 es p g r (k + 1)) := by
  match k with
  | 0 | 1 | 2 | 3 | 4 | 5 =>
    refine ⟨?_, ?_, ?_, ?_, ?_, ?_⟩ <;> intro v h <;> first | exact h | cases h
  | n + 6 => exact preserves_refl _

/-- C6: No Composition, Entry, PhaseDiagram,
GrandPotentialPhaseDiagram or Reaction value is mutated or destroyed
by the notebook after its construction: between any two points of the
assignment sequence, every variable already bound keeps its value. -/
theorem c6_values_preserved (c1 c2 : Composition) (es : List Entry)
    (p : PhaseDiagram) (g : GrandPotentialPhaseDiagram) (r : Reaction)
    (i j : Nat) (hij : i ≤ j) :
    Preserves (stateAt c1 c2 es p g r i) (stateAt c1 c2 es p g r j) := by
  induction j, hij using Nat.le_induction with
  | base => exact preserves_refl _
  | succ j hij ih => exact preserves_trans ih (stateAt_step c1 c2 es p g r j)

/-- C6 witness: preservation between the second and fifth assignment
on concrete values. -/
theorem c6_witness :
    Preserves (stateAt comp1 comp2 [] ⟨[]⟩ ⟨[], []⟩ ⟨"r"⟩ 2)
      (stateAt comp1 comp2 [] ⟨[]⟩ ⟨[], []⟩ ⟨"r"⟩ 5) :=
  c6_values_preserved comp1 comp2 [] ⟨[]⟩ ⟨[], []⟩ ⟨"r"⟩ 2 5 (by decide)

/-- C7 counterexample: the final cell prints a kink reaction and its
type, so the notebook has a displayed output that is neither the
inline plot nor the tabular display, refuting the claim that those
two are the only outputs. -/
theorem c7_counterexample :
    Effect.printOutput "2 LiCoO2 + Li3PS4 to products" ∈
        notebookEffects true ⟨"2 LiCoO2 + Li3PS4 to products"⟩ ∧
    isOutput (Effect.printOutput "2 LiCoO2 + Li3PS4 to products") = true ∧
    Effect.printOutput "2 LiCoO2 + Li3PS4 to products" ≠ Effect.plotOutput ∧
    Effect.printOutput "2 LiCoO2 + Li3PS4 to products" ≠ Effect.tableOutput := by
  decide

/-- C7 amended: no file is written and no state persists; the
displayed outputs are the inline plot, the tabular display of kink
reactions, and the two printed lines of the final cell (one kink
reaction and its type). -/
theorem c7_outputs_and_no_writes (grand : Bool) (rxn : Reaction) :
    (∀ e ∈ notebookEffects grand rxn, writesFile e = false) ∧
    (∀ e ∈ notebookEffects grand rxn, isOutput e = true →
      e = Effect.plotOutput ∨ e = Effect.tableOutput ∨
      e = Effect.printOutput rxn.display ∨
      e = Effect.printOutput reactionTypeName) := by
  constructor <;> intro e he <;>
    simp only [notebookEffects, List.mem_cons, List.not_mem_nil, or_false] at he <;>
    rcases he with rfl | rfl | rfl | rfl | rfl <;> simp [writesFile, isOutput]

/-- C7 witness: the amended statement evaluated at the plot output. -/
theorem c7_witness :
    writesFile Effect.plotOutput = false ∧
    (isOutput Effect.plotOutput = true →
      Effect.plotOutput = Effect.plotOutput ∨
      Effect.plotOutput = Effect.tableOutput ∨
      Effect.plotOutput = Effect.printOutput (Reaction.mk "r").display ∨
      Effect.plotOutput = Effect.printOutput reactionTypeName) :=
  ⟨(c7_outputs_and_no_writes true ⟨"r"⟩).1 Effect.plotOutput (by decide),
   (c7_outputs_and_no_writes true ⟨"r"⟩).2 Effect.plotOutput (by decide)⟩

/-- C8: Every error raised by the external library or the database
call propagates to the top level uncaught: if the entry retrieval,
the chemical-potential lookup or the kink enumeration (in either the
open-system or the closed-system branch) fails, the whole pipeline
evaluates to that same error and no tabulated result is produced. -/
theorem c8_errors_propagate
    (ge : List Symbol → Except PyError (List Entry))
    (tc : PhaseDiagram → Symbol → Except PyError (List ℚ))
    (gk : InterfacialReactivityCall → Except PyError (List Kink))
    (grand : Bool) :
    (∀ e, ge (elements grand) = Except.error e →
        notebookRunE ge tc gk grand = Except.error e) ∧
    (∀ es e, ge (elements true) = Except.ok es →
        tc ⟨es⟩ open_el = Except.error e →
        notebookRunE ge tc gk true = Except.error e) ∧
    (∀ es tcs mu e, ge (elements true) = Except.ok es →
        tc ⟨es⟩ open_el = Except.ok tcs →
        pyIndex tcs 0 = some mu →
        gk ⟨comp1, comp2,
            PDArg.grand ⟨es, [(open_el, relative_mu + mu)]⟩,
            true, true, some ⟨es⟩⟩ = Except.error e →
        notebookRunE ge tc gk true = Except.error e) ∧
    (∀ es e, ge (elements false) = Except.ok es →
        gk ⟨comp1, comp2, PDArg.closed ⟨es⟩, true, false, none⟩ =
            Except.error e →
        notebookRunE ge tc gk false = Except.error e) := by
  refine ⟨fun e h => ?_, fun es e h1 h2 => ?_,
    fun es tcs mu e h1 h2 h3 h4 => ?_, fun es e h1 h2 => ?_⟩
  · simp only [notebookRunE, h]
  · simp only [notebookRunE, h1, if_true, h2]
  · simp only [notebookRunE, h1, if_true, h2, h3, h4]
  · simp only [notebookRunE, h1, Bool.false_eq_true, if_false, h2]

/-- C8 witness: each stage of the pipeline failing on concrete
oracles, in both branches, with the failure surfacing unchanged. -/
theorem c8_witness :
    notebookRunE (fun _ => Except.error PyError.authFailure)
        (fun _ _ => Except.ok []) (fun _ => Except.ok []) true =
      Except.error PyError.authFailure ∧
    notebookRunE (fun _ => Except.ok [])
        (fun _ _ => Except.error PyError.missingAPIKey)
        (fun _ => Except.ok []) true =
      Except.error PyError.missingAPIKey ∧
    notebookRunE (fun _ => Except.ok [])
        (fun _ _ => Except.ok [0])
        (fun _ => Except.error (PyError.other "kink enumeration failed"))
        true =
      Except.error (PyError.other "kink enumeration failed") ∧
    notebookRunE (fun _ => Except.ok [])
        (fun _ _ => Except.ok []) (fun _ => Except.error PyError.emptyEntrySet)
        false =
      Except.error PyError.emptyEntrySet :=
  ⟨(c8_errors_propagate _ _ _ true).1 _ rfl,
   (c8_errors_propagate _ _ _ true).2.1 [] _ rfl rfl,
   (c8_errors_propagate _ _ _ true).2.2.1 [] [0] 0 _ rfl rfl rfl rfl,
   (c8_errors_propagate _ _ _ false).2.2.2 [] _ rfl rfl⟩

end InterfaceRxns
